import Mathlib

/-!
Verification development for the qsipost repository.

The repository builds nipype workflow graphs for post-processing of
diffusion-MRI data.  We shallowly embed the graph-building code of
`src/qsipost/workflows` as Lean definitions: a workflow is a list of
port-typed nodes plus a list of directed port-to-port edges, and each
`init_*_wf` builder of the source becomes a Lean function producing such a
graph (or an `Except` value when the source can raise at build time).

External collaborators that are not part of the repository's sources
(the nipype engine itself, dataset discovery, atlas resolution, and the
nested anatomical/diffusion sub-workflow builders that live outside the
given source tree) are modelled from the specification's description of
their interfaces; each such definition carries a doc comment saying so.
-/

/-- Build-time parameter value attached to a node (interface keyword
arguments resolved at graph construction time). -/
inductive ParamValue where
  | str (s : String)
  | nat (n : Nat)
  | rat (q : ℚ)
  | bool (b : Bool)
  deriving DecidableEq, Repr

/-- Kind tag of a node (spec §3: `identity`, `fan-in`, `function`,
`external-tool`, `derivative-sink`); nested sub-workflows used as nodes are
tagged by which builder produced them. -/
inductive NodeKind where
  | identity
  | fanIn
  | function
  | tool
  | derivativeSink
  | anatomicalWf
  | diffusionWf
  deriving DecidableEq, Repr

/-- A port-typed node: declared input ports, declared output ports and a
build-time parameter mapping.  A nested workflow used as a node exposes its
internal `inputnode.*` / `outputnode.*` ports. -/
structure Node where
  name : String
  kind : NodeKind
  inPorts : List String
  outPorts : List String
  params : List (String × ParamValue)
  deriving DecidableEq, Repr

/-- A directed port-to-port edge (source node name, source port,
destination node name, destination port). -/
structure Edge where
  src : String
  srcPort : String
  dst : String
  dstPort : String
  deriving DecidableEq, Repr

/-- A workflow graph: a name, its nodes, and its edges. -/
structure Workflow where
  name : String
  nodes : List Node
  edges : List Edge
  deriving DecidableEq, Repr

/-- Modelled from the spec: the nipype engine's `Workflow.connect` is not
part of this repository's sources; per spec §4.2 each (source-port,
destination-port) pair "fails independently with a port-mismatch error if
either named port is absent on the referenced node; successful triples are
still applied".  A valid pair appends one edge; an invalid pair leaves the
edge set unchanged. -/
def connectPair (wf : Workflow) (src dst : Node) (p : String × String) : Workflow :=
  if src.outPorts.contains p.1 && dst.inPorts.contains p.2 then
    { wf with edges := wf.edges ++ [⟨src.name, p.1, dst.name, p.2⟩] }
  else
    wf

/-- Modelled from the spec: a batch `connect` call, a list of
(source node, destination node, list of port pairs) entries, applied
best-effort pair by pair (spec §4.2, §9). -/
def connectBatch (wf : Workflow) (conns : List (Node × Node × List (String × String))) : Workflow :=
  conns.foldl (fun acc c => c.2.2.foldl (fun a p => connectPair a c.1 c.2.1 p) acc) wf

/-- Add a node to a workflow (nipype auto-adds nodes referenced by
`connect`; we make the addition explicit). -/
def addNode (wf : Workflow) (n : Node) : Workflow :=
  { wf with nodes := wf.nodes ++ [n] }

/-! ## Atlas resolution and dataset discovery (external collaborators) -/

/-- Modelled from the spec (§6): the atlas-resolution collaborator returns
"an object exposing a parcellation image path, a label table path, and a
label-column name"; the field names follow their uses in
`src/qsipost/workflows/base.py` (`atlas_nifti_file`, `description_csv`,
`label_name`). -/
structure Atlas where
  name : String
  atlas_nifti_file : String
  description_csv : String
  label_name : String
  deriving DecidableEq, Repr

/-- The configured `config.workflow.parcellation_atlas` is either an atlas
name (a string) or an already-initialized `Atlas` object
(`base.py` lines 39-47). -/
inductive AtlasCfg where
  | name (s : String)
  | atlas (a : Atlas)
  deriving DecidableEq, Repr

/-- Errors raised while building the cohort workflow. -/
inductive BuildErr where
  | atlasNotFound (name : String)
  | discovery (subject : String) (msg : String)
  deriving DecidableEq, Repr

/-- The message of each build error; for an unresolved atlas it is the
`ValueError` message of `base.py` lines 43-47. -/
def buildErrMessage : BuildErr → String
  | BuildErr.atlasNotFound n =>
      "Could not find the atlas " ++ n ++ " in the configured atlas directory. " ++
      "Please check the name or initialize a corresponding Atlas object."
  | BuildErr.discovery s m => "Could not collect data for subject " ++ s ++ ": " ++ m

/-- Resolution of `config.workflow.parcellation_atlas` (`base.py` lines
39-47): a string is resolved through the atlas-resolution collaborator
(modelled from the spec as a function `String → Option Atlas`, since the
`Atlas` class is not under the given sources); failure raises a
`ValueError` identifying the atlas. -/
def resolveParcellationAtlas (resolve : String → Option Atlas) :
    AtlasCfg → Except BuildErr Atlas
  | AtlasCfg.atlas a => Except.ok a
  | AtlasCfg.name s =>
      match resolve s with
      | some a => Except.ok a
      | none => Except.error (BuildErr.atlasNotFound s)

/-- Modelled from the spec (§6): per-subject file paths returned by the
dataset-discovery collaborator (`collect_data`, not under the given
sources). -/
structure SubjectData where
  anatomical_reference : String
  anatomical_brain_mask : String
  mni_to_native_transform : String
  gm_probabilistic_segmentation : String
  deriving DecidableEq, Repr

/-- Modelled from the spec (§6): one discovered session record
(session identifier plus per-session file paths; only the identifier
matters for graph topology). -/
structure SessionRecord where
  session_id : String
  deriving DecidableEq, Repr

/-! ## The single-subject workflow (`base.py`, `init_single_subject_wf`) -/

/-- The declared fields of the subject-level identity input node
(`base.py` lines 142-159).  Note the field is `atlas_nifti`, while the
value assignments and connect calls elsewhere in the function use
`atlas_nifti_file`. -/
def subjectInputFields : List String :=
  ["base_directory", "anatomical_reference", "anatomical_brain_mask",
   "mni_to_native_transform", "gm_probabilistic_segmentation", "atlas_name",
   "atlas_nifti", "atlas_table", "label_column", "subject_id",
   "freesurfer_dir"]

/-- The attribute names assigned on the subject input node
(`inputnode.inputs.<field> = ...`, `base.py` lines 160-172); the assigned
values themselves (paths, ids) are runtime data, not graph topology. -/
def subjectInputAssignedFields : List String :=
  ["base_directory", "atlas_name", "atlas_nifti_file", "atlas_table",
   "label_column", "anatomical_reference", "anatomical_brain_mask",
   "mni_to_native_transform", "gm_probabilistic_segmentation", "subject_id",
   "freesurfer_dir"]

/-- The subject-level identity input node `inputnode_subject`: an
`IdentityInterface` exposes its declared fields as both inputs and
outputs. -/
def subjectInputNode : Node :=
  { name := "inputnode_subject"
    kind := NodeKind.identity
    inPorts := subjectInputFields
    outPorts := subjectInputFields
    params := [] }

/-- Modelled from the spec: `init_anatomical_wf`
(`qsipost/workflows/anatomical/anatomical.py`) is not under the given
sources; its `inputnode`/`outputnode` ports are taken from the connect
calls of `base.py` (lines 177-200 and 223-237) and spec §4.3/§4.4. -/
def anatomicalWfNode : Node :=
  { name := "anatomical_wf"
    kind := NodeKind.anatomicalWf
    inPorts :=
      ["inputnode.base_directory", "inputnode.atlas_name",
       "inputnode.atlas_nifti_file", "inputnode.anatomical_reference",
       "inputnode.mni_to_native_transform",
       "inputnode.gm_probabilistic_segmentation", "inputnode.subject_id",
       "inputnode.freesurfer_dir"]
    outPorts :=
      ["outputnode.whole_brain_parcellation",
       "outputnode.gm_cropped_parcellation"]
    params := [] }

/-- Modelled from the spec: `init_diffusion_wf`
(`qsipost/workflows/diffusion/diffusion.py`) is not under the given
sources; one nested session workflow per session record, named
collision-free from the session key (spec §4.4), with the `inputnode`
ports used by the connect calls of `base.py` (lines 211-238). -/
def diffusionWfNode (r : SessionRecord) : Node :=
  { name := "diffusion_" ++ r.session_id ++ "_wf"
    kind := NodeKind.diffusionWf
    inPorts :=
      ["inputnode.base_directory", "inputnode.atlas_name",
       "inputnode.t1w_file", "inputnode.t1w_mask_file",
       "inputnode.whole_brain_t1w_parcellation",
       "inputnode.gm_cropped_t1w_parcellation"]
    outPorts := []
    params := [] }

/-- The port pairs of the `inputnode -> anatomical_workflow` connect call
(`base.py` lines 177-200), in source order. -/
def subjectAnatConnPairs : List (String × String) :=
  [("base_directory", "inputnode.base_directory"),
   ("atlas_name", "inputnode.atlas_name"),
   ("atlas_nifti_file", "inputnode.atlas_nifti_file"),
   ("anatomical_reference", "inputnode.anatomical_reference"),
   ("mni_to_native_transform", "inputnode.mni_to_native_transform"),
   ("gm_probabilistic_segmentation", "inputnode.gm_probabilistic_segmentation"),
   ("subject_id", "inputnode.subject_id"),
   ("freesurfer_dir", "inputnode.freesurfer_dir")]

/-- The port pairs of the per-session `inputnode -> session_workflow`
connect call (`base.py` lines 213-222). -/
def sessionInputConnPairs : List (String × String) :=
  [("base_directory", "inputnode.base_directory"),
   ("atlas_name", "inputnode.atlas_name"),
   ("anatomical_reference", "inputnode.t1w_file"),
   ("anatomical_brain_mask", "inputnode.t1w_mask_file")]

/-- The port pairs of the per-session
`anatomical_workflow -> session_workflow` connect call
(`base.py` lines 223-236). -/
def sessionAnatConnPairs : List (String × String) :=
  [("outputnode.whole_brain_parcellation",
    "inputnode.whole_brain_t1w_parcellation"),
   ("outputnode.gm_cropped_parcellation",
    "inputnode.gm_cropped_t1w_parcellation")]

/-- One step of the session fan-out loop of `init_single_subject_wf`
(`base.py` lines 209-240): nest the session workflow and wire it to the
subject input node and the shared anatomical workflow. -/
def addSessionWf (wf : Workflow) (r : SessionRecord) : Workflow :=
  let sw := diffusionWfNode r
  connectBatch (addNode wf sw)
    [(subjectInputNode, sw, sessionInputConnPairs),
     (anatomicalWfNode, sw, sessionAnatConnPairs)]

/-- The graph built by `init_single_subject_wf` (`base.py` lines 96-242)
once the discovery data is in hand: the subject input node and the single
anatomical workflow are created and wired; if `anat_only` the workflow is
returned as is, otherwise one session workflow is nested and wired per
discovered session record. -/
def singleSubjectGraph (subject_id : String) (anat_only : Bool)
    (sessions : List SessionRecord) : Workflow :=
  let wf : Workflow :=
    { name := "single_subject_" ++ subject_id ++ "_wf"
      nodes := [subjectInputNode, anatomicalWfNode]
      edges := [] }
  let wf := connectBatch wf [(subjectInputNode, anatomicalWfNode, subjectAnatConnPairs)]
  if anat_only then wf
  else sessions.foldl addSessionWf wf

/-- `init_single_subject_wf` (`base.py` lines 96-242): collect the
subject's data through the dataset-discovery collaborator (an exception
there propagates) and build the subject graph.  The atlas argument only
feeds input-node value assignments, which are runtime data. -/
def init_single_subject_wf
    (collect_data : String → Except String (SubjectData × List SessionRecord))
    (subject_id : String) (_parcellation_atlas : Atlas) (anat_only : Bool) :
    Except BuildErr Workflow :=
  match collect_data subject_id with
  | Except.error m => Except.error (BuildErr.discovery subject_id m)
  | Except.ok (_, sessions) =>
      Except.ok (singleSubjectGraph subject_id anat_only sessions)

/-! ## The cohort workflow (`base.py`, `init_qsipost_wf`) -/

/-- The root workflow: nipype's `add_nodes([single_subject_wf])` nests each
fully-built subject workflow as one node of the root graph; we keep the
nested subject workflows themselves as the root's children. -/
structure RootWf where
  name : String
  subjectWfs : List Workflow
  deriving DecidableEq, Repr

/-- The subject loop of `init_qsipost_wf` (`base.py` lines 53-92): each
subject workflow is built in turn and added to the root; there is no
exception handling around the body (the `try`/`except` in the source is
commented out), so a failure propagates immediately. -/
def qsipostLoop (build : String → Except BuildErr Workflow) :
    List String → List Workflow → Except BuildErr (List Workflow)
  | [], acc => Except.ok acc
  | s :: rest, acc =>
      match build s with
      | Except.error e => Except.error e
      | Except.ok w => qsipostLoop build rest (acc ++ [w])

/-- `init_qsipost_wf` (`base.py` lines 18-93): resolve the configured
parcellation atlas (fatal `ValueError` when it cannot be resolved), create
the root workflow, then iterate `config.execution.participant_label`
building and nesting one subject workflow per participant. -/
def init_qsipost_wf (resolve : String → Option Atlas)
    (collect_data : String → Except String (SubjectData × List SessionRecord))
    (participant_label : List String) (parcellation_atlas : AtlasCfg)
    (anat_only : Bool) : Except BuildErr RootWf :=
  match resolveParcellationAtlas resolve parcellation_atlas with
  | Except.error e => Except.error e
  | Except.ok atlas =>
      match qsipostLoop
          (fun s => init_single_subject_wf collect_data s atlas anat_only)
          participant_label [] with
      | Except.error e => Except.error e
      | Except.ok wfs => Except.ok { name := "qsipost_wf", subjectWfs := wfs }

/-! ## Atlas registration (`anatomical/procedures/register_atlas.py`) -/

/-- The `apply_transforms` node of the registration workflow: an ANTs
`ApplyTransforms` interface constructed with
`interpolation="NearestNeighbor"` (`register_atlas.py` lines 37-42). -/
def applyTransformsNode : Node :=
  { name := "apply_transforms"
    kind := NodeKind.tool
    inPorts := ["input_image", "transforms", "reference_image"]
    outPorts := ["output_image"]
    params := [("interpolation", ParamValue.str "NearestNeighbor")] }

/-- The `inputnode` of the registration workflow
(`register_atlas.py` lines 18-28). -/
def registrationInputNode : Node :=
  { name := "inputnode"
    kind := NodeKind.identity
    inPorts := ["anatomical_reference", "mni_to_native_transform",
                "atlas_name", "atlas_nifti_file"]
    outPorts := ["anatomical_reference", "mni_to_native_transform",
                 "atlas_name", "atlas_nifti_file"]
    params := [] }

/-- The `outputnode` of the registration workflow
(`register_atlas.py` lines 29-36). -/
def registrationOutputNode : Node :=
  { name := "outputnode"
    kind := NodeKind.identity
    inPorts := ["whole_brain_parcellation"]
    outPorts := ["whole_brain_parcellation"]
    params := [] }

/-- `init_registration_wf` (`register_atlas.py` lines 6-63): warp the
template-space parcellation into subject space. -/
def init_registration_wf (name : String) : Workflow :=
  connectBatch
    { name := name
      nodes := [registrationInputNode, registrationOutputNode, applyTransformsNode]
      edges := [] }
    [(registrationInputNode, applyTransformsNode,
      [("atlas_nifti_file", "input_image"),
       ("mni_to_native_transform", "transforms"),
       ("anatomical_reference", "reference_image")]),
     (applyTransformsNode, registrationOutputNode,
      [("output_image", "whole_brain_parcellation")])]

/-! ## Tensor estimation (`diffusion/procedures/tensor_estimations/mrtrix3.py`) -/

/-- The fixed list of derived tensor parameters
(`mrtrix3.py` lines 11-21). -/
def TENSOR_PARAMETERS : List String :=
  ["adc", "fa", "ad", "rd", "cl", "cp", "cs", "evec", "eval"]

/-- The `desc` iterfield values assigned to the derivative-sink map node
(`ds_tensor_wf.inputs.desc = TENSOR_PARAMETERS`, `mrtrix3.py` line 77). -/
def dsTensorDescValues : List String := TENSOR_PARAMETERS

/-- Expansion of a nipype `MapNode` over its `desc` iterfield: one sink
instance per element, tagged with that element as its `desc`. -/
def mapNodeInstances (name : String) (descs : List String) : List (String × String) :=
  descs.map (fun d => (name, d))

/-- The `inputnode` of the tensor workflow (`mrtrix3.py` lines 39-49). -/
def tensorInputNode : Node :=
  { name := "inputnode"
    kind := NodeKind.identity
    inPorts := ["base_directory", "dwi_nifti", "dwi_grad", "dwi_mask"]
    outPorts := ["base_directory", "dwi_nifti", "dwi_grad", "dwi_mask"]
    params := [] }

/-- The `outputnode` of the tensor workflow (`mrtrix3.py` lines 50-53):
one field per tensor parameter. -/
def tensorOutputNode : Node :=
  { name := "outputnode"
    kind := NodeKind.identity
    inPorts := TENSOR_PARAMETERS
    outPorts := TENSOR_PARAMETERS
    params := [] }

/-- The `mrtrix3_tensor_wf` node (`FitTensor`, `mrtrix3.py` lines 54-57). -/
def fitTensorNode : Node :=
  { name := "mrtrix3_tensor_wf"
    kind := NodeKind.tool
    inPorts := ["in_file", "grad_file", "in_mask"]
    outPorts := ["out_file"]
    params := [] }

/-- The `mrtrix3_tensor2metric_wf` node (`TensorMetrics`, `mrtrix3.py`
lines 58-63), constructed with one `out_<param> = "<param>.nii.gz"`
keyword per tensor parameter. -/
def tensorMetricsNode : Node :=
  { name := "mrtrix3_tensor2metric_wf"
    kind := NodeKind.tool
    inPorts := ["in_file"]
    outPorts := TENSOR_PARAMETERS.map (fun p => "out_" ++ p)
    params := TENSOR_PARAMETERS.map
      (fun p => ("out_" ++ p, ParamValue.str (p ++ ".nii.gz"))) }

/-- The fan-in `listify_tensor_params` node (`niu.Merge(9)`, `mrtrix3.py`
lines 64-67): input ports `in1..inN`, single ordered-sequence output. -/
def listifyTensorNode : Node :=
  { name := "listify_tensor_params"
    kind := NodeKind.fanIn
    inPorts := (List.range TENSOR_PARAMETERS.length).map
      (fun i => "in" ++ toString (i + 1))
    outPorts := ["out"]
    params := [] }

/-- The derivative-sink map node `ds_tensor_wf`
(`mrtrix3.py` lines 68-76), iterating over `in_file` and `desc`. -/
def dsTensorNode : Node :=
  { name := "ds_tensor_wf"
    kind := NodeKind.derivativeSink
    inPorts := ["base_directory", "in_file", "source_file", "desc"]
    outPorts := []
    params := [] }

/-- The `outputnode -> listify_tensor_params` port pairs
(`[(param, f"in{i+1}") for i, param in enumerate(TENSOR_PARAMETERS)]`,
`mrtrix3.py` line 105). -/
def tensorListifyPairs : List (String × String) :=
  TENSOR_PARAMETERS.enum.map (fun ip => (ip.2, "in" ++ toString (ip.1 + 1)))

/-- `init_mrtrix3_tensor_wf` (`mrtrix3.py` lines 24-122). -/
def init_mrtrix3_tensor_wf (name : String) : Workflow :=
  connectBatch
    { name := name
      nodes := [tensorInputNode, tensorOutputNode, fitTensorNode,
                tensorMetricsNode, listifyTensorNode, dsTensorNode]
      edges := [] }
    [(tensorInputNode, fitTensorNode,
      [("dwi_nifti", "in_file"), ("dwi_grad", "grad_file"),
       ("dwi_mask", "in_mask")]),
     (fitTensorNode, tensorMetricsNode, [("out_file", "in_file")]),
     (tensorMetricsNode, tensorOutputNode,
      TENSOR_PARAMETERS.map (fun p => ("out_" ++ p, p))),
     (tensorOutputNode, listifyTensorNode, tensorListifyPairs),
     (listifyTensorNode, dsTensorNode, [("out", "in_file")]),
     (tensorInputNode, dsTensorNode,
      [("base_directory", "base_directory"), ("dwi_nifti", "source_file")])]

/-! ## Tractography (`diffusion/procedures/tractography/mrtrix.py`) -/

/-- A NIfTI image as read by `nibabel`: only the header's `pixdim` array
(8 entries; index 1 is the first spatial voxel dimension) is consulted by
the code under verification.  Voxel dimensions are modelled as rationals;
the source's floating-point products are exact at the values involved. -/
structure NiftiImage where
  pixdim : Fin 8 → ℚ

/-- `estimate_tractography_parameters` (`mrtrix.py` lines 10-47): scale
the step size and the minimum/maximum tract length by the first spatial
voxel dimension of the input image (`data.header["pixdim"][1]`).  The
source receives a file path and loads it with nibabel; we pass the loaded
image directly. -/
def estimate_tractography_parameters (in_file : NiftiImage)
    (stepscale : ℚ := 1/2) (lenscale_min : ℚ := 30)
    (lenscale_max : ℚ := 500) : ℚ × ℚ × ℚ :=
  let pixdim := in_file.pixdim 1
  (stepscale * pixdim, lenscale_min * pixdim, lenscale_max * pixdim)

/-- The `config.workflow` fields consumed by the tractography builder.
`sift_term_number` / `sift_term_ratio_q` model the source's
`sift_term_number` / `sift_term_ratio` configuration values, each either
unset (`none`) or a number (Python truthiness applies: `None` and `0` are
falsy). -/
structure TractographyCfg where
  do_sift_filtering : Bool
  sift_term_number : Option Nat
  sift_term_ratio_q : Option ℚ
  n_tracts : Nat
  angle : Nat
  deriving DecidableEq, Repr

/-- Python truthiness of an optional integer configuration value. -/
def pyTruthyNat : Option Nat → Bool
  | none => false
  | some n => n != 0

/-- Python truthiness of an optional numeric configuration value. -/
def pyTruthyRat : Option ℚ → Bool
  | none => false
  | some q => q != 0

/-- The `inputnode` of the tractography workflow
(`mrtrix.py` lines 65-77). -/
def tractographyInputNode : Node :=
  { name := "inputnode"
    kind := NodeKind.identity
    inPorts := ["dwi_file", "dwi_reference", "dwi_grad", "dwi_mask_file",
                "t1w_file", "t1w_mask_file"]
    outPorts := ["dwi_file", "dwi_reference", "dwi_grad", "dwi_mask_file",
                 "t1w_file", "t1w_mask_file"]
    params := [] }

/-- The `outputnode` of the tractography workflow
(`mrtrix.py` lines 79-86). -/
def tractographyOutputNode : Node :=
  { name := "outputnode"
    kind := NodeKind.identity
    inPorts := ["tck_file"]
    outPorts := ["tck_file"]
    params := [] }

/-- The `dwi2response` node (`ResponseSD`, `mrtrix.py` lines 87-96). -/
def dwi2responseNode : Node :=
  { name := "dwi2response"
    kind := NodeKind.tool
    inPorts := ["in_file", "grad_file", "in_mask"]
    outPorts := ["wm_file", "gm_file", "csf_file", "voxels_file"]
    params := [("algorithm", ParamValue.str "dhollander"),
               ("wm_file", ParamValue.str "wm.txt"),
               ("gm_file", ParamValue.str "gm.txt"),
               ("csf_file", ParamValue.str "csf.txt"),
               ("voxels_file", ParamValue.str "voxels.mif")] }

/-- The `dwi2fod` node (`EstimateFOD`, `mrtrix.py` lines 97-102). -/
def dwi2fodNode : Node :=
  { name := "dwi2fod"
    kind := NodeKind.tool
    inPorts := ["in_file", "grad_file", "in_mask", "wm_txt", "gm_txt",
                "csf_txt"]
    outPorts := ["wm_odf", "gm_odf", "csf_odf"]
    params := [("algorithm", ParamValue.str "msmt_csd")] }

/-- The `mtnormalise` node (`MTNormalise`, `mrtrix.py` lines 103-106). -/
def mtnormaliseNode : Node :=
  { name := "mtnormalise"
    kind := NodeKind.tool
    inPorts := ["in_wm_fod", "in_gm_fod", "in_csf_fod", "in_mask"]
    outPorts := ["out_wm_fod", "out_gm_fod", "out_csf_fod"]
    params := [] }

/-- The `gen_5tt` node (`Generate5tt`, `mrtrix.py` lines 107-112). -/
def gen5ttNode : Node :=
  { name := "gen_5tt"
    kind := NodeKind.tool
    inPorts := ["in_file", "in_mask"]
    outPorts := ["out_file"]
    params := [("algorithm", ParamValue.str "fsl")] }

/-- The `estimate_tractography_parameters` function node
(`mrtrix.py` lines 113-123), with its static scale inputs. -/
def estimateParamsNode (stepscale lenscale_min lenscale_max : ℚ) : Node :=
  { name := "estimate_tractography_parameters"
    kind := NodeKind.function
    inPorts := ["in_file", "stepscale", "lenscale_min", "lenscale_max"]
    outPorts := ["stepscale", "lenscale_min", "lenscale_max"]
    params := [("stepscale", ParamValue.rat stepscale),
               ("lenscale_min", ParamValue.rat lenscale_min),
               ("lenscale_max", ParamValue.rat lenscale_max)] }

/-- The `tckgen` node (`Tractography`, `mrtrix.py` lines 125-132),
parameterized from the configuration. -/
def tckgenNode (algorithm : String) (cfg : TractographyCfg) : Node :=
  { name := "tckgen"
    kind := NodeKind.tool
    inPorts := ["in_file", "act_file", "step_size", "min_length",
                "max_length", "seed_image"]
    outPorts := ["out_file"]
    params := [("algorithm", ParamValue.str algorithm),
               ("select", ParamValue.nat cfg.n_tracts),
               ("angle", ParamValue.nat cfg.angle)] }

/-- The `ds_unfiltered_tracts` derivative sink
(`mrtrix.py` lines 134-144). -/
def dsTractsNode (output_dir : String) : Node :=
  { name := "ds_unfiltered_tracts"
    kind := NodeKind.derivativeSink
    inPorts := ["in_file", "source_file"]
    outPorts := []
    params := [("base_directory", ParamValue.str output_dir),
               ("suffix", ParamValue.str "tracts"),
               ("extension", ParamValue.str ".tck"),
               ("desc", ParamValue.str "unfiltered"),
               ("reconstruction", ParamValue.str "mrtrix")] }

/-- The `tcksift` node (`TCKSift`, `mrtrix.py` lines 271-277), built from
the keyword arguments selected by the configuration. -/
def tcksiftNode (kwargs : List (String × ParamValue)) : Node :=
  { name := "tcksift"
    kind := NodeKind.tool
    inPorts := ["in_tracks", "in_fod", "act_file"]
    outPorts := ["out_file"]
    params := kwargs ++ [("fd_scale_gm", ParamValue.bool true)] }

/-- The `ValueError` message raised when filtering is requested without a
termination criterion (`mrtrix.py` lines 265-270). -/
def siftValueErrorMsg : String :=
  "Either sift_term_number or sift_term_ratio must be specified if sift_filtering is set to True."

/-- The `tcksift_kwargs` selection (`mrtrix.py` lines 259-270): a truthy
`sift_term_number` wins, else a truthy `sift_term_ratio`, else a
`ValueError` is raised. -/
def tcksiftKwargs (cfg : TractographyCfg) : Except String (List (String × ParamValue)) :=
  if pyTruthyNat cfg.sift_term_number then
    Except.ok [("term_number", ParamValue.nat (cfg.sift_term_number.getD 0))]
  else if pyTruthyRat cfg.sift_term_ratio_q then
    Except.ok [("term_ratio", ParamValue.rat (cfg.sift_term_ratio_q.getD 0))]
  else
    Except.error siftValueErrorMsg

/-- The names of the nine nodes created by the unconditional part of
`init_mrtrix_tractography_wf` (`mrtrix.py` lines 65-144), in creation
order. -/
def tractographyBaseNodeNames : List String :=
  ["inputnode", "outputnode", "dwi2response", "dwi2fod", "mtnormalise",
   "gen_5tt", "estimate_tractography_parameters", "tckgen",
   "ds_unfiltered_tracts"]

/-- The unconditional part of `init_mrtrix_tractography_wf`
(`mrtrix.py` lines 63-257): the nine nodes of the unfiltered pipeline and
their connections, built before the `do_sift_filtering` check is
reached. -/
def tractographyUnfilteredWf (cfg : TractographyCfg) (name : String)
    (tractography_algorithm : String)
    (stepscale lenscale_min lenscale_max : ℚ) (output_dir : String) : Workflow :=
  let inputnode := tractographyInputNode
  let outputnode := tractographyOutputNode
  let estParams := estimateParamsNode stepscale lenscale_min lenscale_max
  let tckgen := tckgenNode tractography_algorithm cfg
  let dsTracts := dsTractsNode output_dir
  let wf : Workflow :=
    { name := name
      nodes := [inputnode, outputnode, dwi2responseNode, dwi2fodNode,
                mtnormaliseNode, gen5ttNode, estParams, tckgen, dsTracts]
      edges := [] }
  connectBatch wf
    [(inputnode, dwi2responseNode,
      [("dwi_file", "in_file"), ("dwi_grad", "grad_file"),
       ("dwi_mask_file", "in_mask")]),
     (inputnode, dwi2fodNode,
      [("dwi_file", "in_file"), ("dwi_grad", "grad_file"),
       ("dwi_mask_file", "in_mask")]),
     (dwi2responseNode, dwi2fodNode,
      [("wm_file", "wm_txt"), ("gm_file", "gm_txt"),
       ("csf_file", "csf_txt")]),
     (dwi2fodNode, mtnormaliseNode,
      [("wm_odf", "in_wm_fod"), ("gm_odf", "in_gm_fod"),
       ("csf_odf", "in_csf_fod")]),
     (inputnode, mtnormaliseNode, [("dwi_mask_file", "in_mask")]),
     (inputnode, gen5ttNode,
      [("t1w_file", "in_file"), ("t1w_mask_file", "in_mask")]),
     (mtnormaliseNode, tckgen, [("out_wm_fod", "in_file")]),
     (inputnode, estParams, [("dwi_file", "in_file")]),
     (gen5ttNode, tckgen, [("out_file", "act_file")]),
     (estParams, tckgen,
      [("stepscale", "step_size"), ("lenscale_min", "min_length"),
       ("lenscale_max", "max_length")]),
     (inputnode, tckgen, [("dwi_mask_file", "seed_image")]),
     (tckgen, outputnode, [("out_file", "tck_file")]),
     (tckgen, dsTracts, [("out_file", "in_file")]),
     (inputnode, dsTracts, [("dwi_file", "source_file")])]

/-- `init_mrtrix_tractography_wf` (`mrtrix.py` lines 50-311).  The result
pairs the list of node names in creation order (the build trace) with
either the finished workflow or the `ValueError` raised by the filtering
branch. -/
def init_mrtrix_tractography_wf (cfg : TractographyCfg)
    (name : String := "mrtrix_tractography_wf")
    (tractography_algorithm : String := "SD_Stream")
    (stepscale : ℚ := 1/2) (lenscale_min : ℚ := 30) (lenscale_max : ℚ := 500)
    (output_dir : String := ".") :
    List String × Except String Workflow :=
  let wf := tractographyUnfilteredWf cfg name tractography_algorithm
    stepscale lenscale_min lenscale_max output_dir
  if cfg.do_sift_filtering then
    match tcksiftKwargs cfg with
    | Except.error e => (tractographyBaseNodeNames, Except.error e)
    | Except.ok kwargs =>
        let tcksift := tcksiftNode kwargs
        let wf := connectBatch (addNode wf tcksift)
          [(tckgenNode tractography_algorithm cfg, tcksift, [("out_file", "in_tracks")]),
           (mtnormaliseNode, tcksift, [("out_wm_fod", "in_fod")]),
           (gen5ttNode, tcksift, [("out_file", "act_file")]),
           (tcksift, tractographyOutputNode, [("out_file", "tck_file")])]
        (tractographyBaseNodeNames ++ ["tcksift"], Except.ok wf)
  else
    (tractographyBaseNodeNames, Except.ok wf)

/-! ## Derived edge lists and concrete fixtures -/

/-- The six edges wired for one session subgraph (`base.py` lines
211-238): four from the subject input node and two parcellation inputs
from the shared anatomical workflow. -/
def sessionEdges (r : SessionRecord) : List Edge :=
  [⟨"inputnode_subject", "base_directory",
    "diffusion_" ++ r.session_id ++ "_wf", "inputnode.base_directory"⟩,
   ⟨"inputnode_subject", "atlas_name",
    "diffusion_" ++ r.session_id ++ "_wf", "inputnode.atlas_name"⟩,
   ⟨"inputnode_subject", "anatomical_reference",
    "diffusion_" ++ r.session_id ++ "_wf", "inputnode.t1w_file"⟩,
   ⟨"inputnode_subject", "anatomical_brain_mask",
    "diffusion_" ++ r.session_id ++ "_wf", "inputnode.t1w_mask_file"⟩,
   ⟨"anatomical_wf", "outputnode.whole_brain_parcellation",
    "diffusion_" ++ r.session_id ++ "_wf",
    "inputnode.whole_brain_t1w_parcellation"⟩,
   ⟨"anatomical_wf", "outputnode.gm_cropped_parcellation",
    "diffusion_" ++ r.session_id ++ "_wf",
    "inputnode.gm_cropped_t1w_parcellation"⟩]

/-- The edges produced by the `inputnode -> anatomical_workflow` connect
call: seven of the eight requested pairs; the `atlas_nifti_file` pair is
rejected because that source port is not among the input node's declared
fields (they contain `atlas_nifti` instead). -/
def subjAnatEdges : List Edge :=
  [⟨"inputnode_subject", "base_directory", "anatomical_wf", "inputnode.base_directory"⟩,
   ⟨"inputnode_subject", "atlas_name", "anatomical_wf", "inputnode.atlas_name"⟩,
   ⟨"inputnode_subject", "anatomical_reference", "anatomical_wf",
    "inputnode.anatomical_reference"⟩,
   ⟨"inputnode_subject", "mni_to_native_transform", "anatomical_wf",
    "inputnode.mni_to_native_transform"⟩,
   ⟨"inputnode_subject", "gm_probabilistic_segmentation", "anatomical_wf",
    "inputnode.gm_probabilistic_segmentation"⟩,
   ⟨"inputnode_subject", "subject_id", "anatomical_wf", "inputnode.subject_id"⟩,
   ⟨"inputnode_subject", "freesurfer_dir", "anatomical_wf", "inputnode.freesurfer_dir"⟩]

/-- A concrete atlas, for instantiating the general theorems. -/
def atlas0 : Atlas :=
  ⟨"brainnetome", "/atlases/brainnetome/atlas.nii.gz",
   "/atlases/brainnetome/atlas.csv", "label"⟩

/-- A concrete subject-data record. -/
def sd0 : SubjectData :=
  ⟨"t1w.nii.gz", "t1w_mask.nii.gz", "mni2native.h5", "gm_probseg.nii.gz"⟩

/-- A concrete session assignment: subject `01` has one session, every
other subject has two. -/
def ss0 : String → List SessionRecord :=
  fun s => if s == "01" then [⟨"1"⟩] else [⟨"1"⟩, ⟨"2"⟩]

/-- A concrete, always-succeeding dataset-discovery collaborator. -/
def collect0 : String → Except String (SubjectData × List SessionRecord) :=
  fun s => Except.ok (sd0, ss0 s)

/-- A concrete discovery collaborator that fails for subject `02`. -/
def collectFail : String → Except String (SubjectData × List SessionRecord) :=
  fun s =>
    if s == "02" then Except.error "missing DWI series"
    else Except.ok (sd0, [⟨"1"⟩])

/-- A concrete atlas resolver that always succeeds. -/
def resolve0 : String → Option Atlas := fun _ => some atlas0

/-- A concrete atlas resolver that never resolves anything. -/
def resolveNone : String → Option Atlas := fun _ => none

/-! ## Helper lemmas about the graph operations -/

/-- `connectPair` never changes the node set. -/
theorem connectPair_nodes (wf : Workflow) (src dst : Node) (p : String × String) :
    (connectPair wf src dst p).nodes = wf.nodes := by
  unfold connectPair
  split <;> rfl

/-- A fold of `connectPair` over a pair list never changes the node set. -/
theorem connectPairs_nodes (src dst : Node) (ps : List (String × String)) :
    ∀ wf : Workflow,
      (ps.foldl (fun a p => connectPair a src dst p) wf).nodes = wf.nodes := by
  induction ps with
  | nil => intro wf; rfl
  | cons p rest ih =>
      intro wf
      rw [List.foldl_cons, ih, connectPair_nodes]

/-- `connectBatch` never changes the node set. -/
theorem connectBatch_nodes (conns : List (Node × Node × List (String × String))) :
    ∀ wf : Workflow, (connectBatch wf conns).nodes = wf.nodes := by
  induction conns with
  | nil => intro wf; rfl
  | cons c rest ih =>
      intro wf
      show (connectBatch _ rest).nodes = _
      rw [ih, connectPairs_nodes]

/-- One step of the session fan-out: the session workflow node is appended
and exactly the six session edges are added (all six port pairs are
declared on both endpoints). -/
theorem addSessionWf_spec (wf : Workflow) (r : SessionRecord) :
    addSessionWf wf r =
      { wf with nodes := wf.nodes ++ [diffusionWfNode r],
                edges := wf.edges ++ sessionEdges r } := by
  have h2 : (addSessionWf wf r).edges = wf.edges ++ sessionEdges r := by
    show (((((wf.edges ++ _) ++ _) ++ _) ++ _) ++ _) ++ _ = _
    simp [sessionEdges, subjectInputNode, anatomicalWfNode, diffusionWfNode]
  have h1 : (addSessionWf wf r).nodes = wf.nodes ++ [diffusionWfNode r] := rfl
  have h0 : (addSessionWf wf r).name = wf.name := rfl
  calc addSessionWf wf r
      = ⟨(addSessionWf wf r).name, (addSessionWf wf r).nodes,
         (addSessionWf wf r).edges⟩ := rfl
    _ = _ := by rw [h0, h1, h2]

/-- The session fan-out loop appends one session node and six session
edges per discovered session record, in order. -/
theorem sessionFold_spec (sessions : List SessionRecord) : ∀ wf : Workflow,
    sessions.foldl addSessionWf wf =
      { wf with nodes := wf.nodes ++ sessions.map diffusionWfNode,
                edges := wf.edges ++ sessions.flatMap sessionEdges } := by
  induction sessions with
  | nil => intro wf; simp
  | cons r rest ih =>
      intro wf
      simp only [List.foldl_cons, ih, addSessionWf_spec, List.map_cons,
        List.flatMap_cons, List.append_assoc, List.cons_append, List.nil_append]

/-- Closed form of the subject graph when `anat_only` is false. -/
theorem singleSubjectGraph_false (s : String) (sessions : List SessionRecord) :
    singleSubjectGraph s false sessions =
      { name := "single_subject_" ++ s ++ "_wf",
        nodes := [subjectInputNode, anatomicalWfNode] ++ sessions.map diffusionWfNode,
        edges := subjAnatEdges ++ sessions.flatMap sessionEdges } := by
  show sessions.foldl addSessionWf _ = _
  rw [sessionFold_spec]
  rfl

/-- Closed form of the subject graph when `anat_only` is true. -/
theorem singleSubjectGraph_true (s : String) (sessions : List SessionRecord) :
    singleSubjectGraph s true sessions =
      { name := "single_subject_" ++ s ++ "_wf",
        nodes := [subjectInputNode, anatomicalWfNode],
        edges := subjAnatEdges } := by
  rfl

/-- When every subject build succeeds, the subject loop of
`init_qsipost_wf` returns one built subject workflow per participant, in
order. -/
theorem qsipostLoop_all_ok (build : String → Except BuildErr Workflow)
    (f : String → Workflow) :
    ∀ (ps : List String) (acc : List Workflow),
      (∀ s ∈ ps, build s = Except.ok (f s)) →
      qsipostLoop build ps acc = Except.ok (acc ++ ps.map f) := by
  intro ps
  induction ps with
  | nil => intro acc _; simp [qsipostLoop]
  | cons p rest ih =>
      intro acc h
      have hp : build p = Except.ok (f p) := h p (List.mem_cons_self p rest)
      simp only [qsipostLoop, hp]
      rw [ih (acc ++ [f p]) (fun s hs => h s (List.mem_cons_of_mem p hs))]
      simp

/-- When one subject build fails, the subject loop propagates that error,
regardless of the participants that come after the failing one. -/
theorem qsipostLoop_error (build : String → Except BuildErr Workflow) (e : BuildErr) :
    ∀ (pre : List String) (s : String) (post : List String) (acc : List Workflow),
      (∀ p ∈ pre, ∃ w, build p = Except.ok w) →
      build s = Except.error e →
      qsipostLoop build (pre ++ s :: post) acc = Except.error e := by
  intro pre
  induction pre with
  | nil =>
      intro s post acc _ hs
      simp only [List.nil_append, qsipostLoop, hs]
  | cons p rest ih =>
      intro s post acc h hs
      obtain ⟨w, hw⟩ := h p (List.mem_cons_self p rest)
      simp only [List.cons_append, qsipostLoop, hw]
      exact ih s post _ (fun q hq => h q (List.mem_cons_of_mem p hq)) hs

/-! ## Claim theorems -/

/-- C1: for every cohort build with `anat_only = false`, the root workflow
contains exactly one subject subgraph per participant; each subject
subgraph contains exactly one session subgraph per discovered session
record; every session subgraph's parcellation inputs
(`whole_brain_t1w_parcellation`, `gm_cropped_t1w_parcellation`) are wired
from that subject's single shared anatomical-registration workflow, which
appears exactly once per subject. -/
theorem c1_cohort_build_topology
    (resolve : String → Option Atlas)
    (collect : String → Except String (SubjectData × List SessionRecord))
    (participant_label : List String) (acfg : AtlasCfg) (atlas : Atlas)
    (sd : String → SubjectData) (ss : String → List SessionRecord)
    (hatlas : resolveParcellationAtlas resolve acfg = Except.ok atlas)
    (hcollect : ∀ s ∈ participant_label, collect s = Except.ok (sd s, ss s))
    (hnodup : participant_label.Nodup) :
    ∃ root : RootWf,
      init_qsipost_wf resolve collect participant_label acfg false = Except.ok root ∧
      root.subjectWfs = participant_label.map (fun s => singleSubjectGraph s false (ss s)) ∧
      root.subjectWfs.map Workflow.name =
        participant_label.map (fun s => "single_subject_" ++ s ++ "_wf") ∧
      (∀ s ∈ participant_label,
        (root.subjectWfs.map Workflow.name).count ("single_subject_" ++ s ++ "_wf") = 1) ∧
      (∀ s ∈ participant_label,
        ((singleSubjectGraph s false (ss s)).nodes.filter
            (fun n => n.kind == NodeKind.diffusionWf)).map Node.name =
          (ss s).map (fun r => "diffusion_" ++ r.session_id ++ "_wf") ∧
        (singleSubjectGraph s false (ss s)).nodes.filter
            (fun n => n.kind == NodeKind.anatomicalWf) = [anatomicalWfNode] ∧
        (∀ r ∈ ss s,
          (⟨"anatomical_wf", "outputnode.whole_brain_parcellation",
            "diffusion_" ++ r.session_id ++ "_wf",
            "inputnode.whole_brain_t1w_parcellation"⟩ : Edge) ∈
              (singleSubjectGraph s false (ss s)).edges ∧
          (⟨"anatomical_wf", "outputnode.gm_cropped_parcellation",
            "diffusion_" ++ r.session_id ++ "_wf",
            "inputnode.gm_cropped_t1w_parcellation"⟩ : Edge) ∈
              (singleSubjectGraph s false (ss s)).edges) ∧
        (∀ e ∈ (singleSubjectGraph s false (ss s)).edges,
          (e.dstPort = "inputnode.whole_brain_t1w_parcellation" ∨
           e.dstPort = "inputnode.gm_cropped_t1w_parcellation") →
          e.src = "anatomical_wf")) := by
  have hbuild : ∀ s ∈ participant_label,
      init_single_subject_wf collect s atlas false =
        Except.ok (singleSubjectGraph s false (ss s)) := by
    intro s hs
    simp [init_single_subject_wf, hcollect s hs]
  have hnodes : ∀ (s : String) (l : List SessionRecord),
      (singleSubjectGraph s false l).nodes =
        [subjectInputNode, anatomicalWfNode] ++ l.map diffusionWfNode := by
    intro s l; rw [singleSubjectGraph_false]
  have hedges : ∀ (s : String) (l : List SessionRecord),
      (singleSubjectGraph s false l).edges =
        subjAnatEdges ++ l.flatMap sessionEdges := by
    intro s l; rw [singleSubjectGraph_false]
  have hname : ∀ (s : String) (l : List SessionRecord),
      (singleSubjectGraph s false l).name = "single_subject_" ++ s ++ "_wf" := by
    intro s l; rw [singleSubjectGraph_false]
  have hloop := qsipostLoop_all_ok
    (fun s => init_single_subject_wf collect s atlas false)
    (fun s => singleSubjectGraph s false (ss s)) participant_label [] hbuild
  refine ⟨⟨"qsipost_wf", participant_label.map (fun s => singleSubjectGraph s false (ss s))⟩,
    ?_, rfl, ?_, ?_, ?_⟩
  · simp only [init_qsipost_wf, hatlas, hloop, List.nil_append]
  · simp only [List.map_map]
    exact List.map_congr_left (fun s _ => hname s (ss s))
  · intro s hs
    have hmapn : (List.map Workflow.name
        (participant_label.map (fun s => singleSubjectGraph s false (ss s)))) =
        participant_label.map (fun s => "single_subject_" ++ s ++ "_wf") := by
      simp only [List.map_map]
      exact List.map_congr_left (fun s _ => hname s (ss s))
    rw [hmapn]
    have hinj : Function.Injective (fun s : String => "single_subject_" ++ s ++ "_wf") := by
      intro a b h
      have hd := congrArg String.data h
      simp only [String.data_append] at hd
      exact String.ext (List.append_cancel_left (List.append_cancel_right hd))
    rw [show ("single_subject_" ++ s ++ "_wf") =
      (fun s : String => "single_subject_" ++ s ++ "_wf") s from rfl,
      List.count_map_of_injective _ _ hinj]
    exact List.count_eq_one_of_mem hnodup hs
  · intro s hs
    refine ⟨?_, ?_, ?_, ?_⟩
    · rw [hnodes, List.filter_append]
      have h1 : List.filter (fun n => n.kind == NodeKind.diffusionWf)
          [subjectInputNode, anatomicalWfNode] = [] := rfl
      have h2 : ((ss s).map diffusionWfNode).filter
          (fun n => n.kind == NodeKind.diffusionWf) = (ss s).map diffusionWfNode := by
        apply List.filter_eq_self.mpr
        intro n hn
        obtain ⟨r, _, rfl⟩ := List.mem_map.mp hn
        rfl
      rw [h1, h2, List.nil_append, List.map_map]
      exact List.map_congr_left (fun r _ => rfl)
    · rw [hnodes, List.filter_append]
      have h1 : List.filter (fun n => n.kind == NodeKind.anatomicalWf)
          [subjectInputNode, anatomicalWfNode] = [anatomicalWfNode] := rfl
      have h2 : ((ss s).map diffusionWfNode).filter
          (fun n => n.kind == NodeKind.anatomicalWf) = [] := by
        apply List.filter_eq_nil_iff.mpr
        intro n hn
        obtain ⟨r, _, rfl⟩ := List.mem_map.mp hn
        simp [diffusionWfNode]
      rw [h1, h2, List.append_nil]
    · intro r hr
      rw [hedges]
      constructor
      · apply List.mem_append_right
        exact List.mem_flatMap.mpr ⟨r, hr, by simp [sessionEdges]⟩
      · apply List.mem_append_right
        exact List.mem_flatMap.mpr ⟨r, hr, by simp [sessionEdges]⟩
    · intro e he
      rw [hedges] at he
      rcases List.mem_append.mp he with h | h
      · simp only [subjAnatEdges, List.mem_cons, List.not_mem_nil, or_false] at h
        rcases h with rfl | rfl | rfl | rfl | rfl | rfl | rfl <;> decide
      · obtain ⟨r, _, hm⟩ := List.mem_flatMap.mp h
        simp only [sessionEdges, List.mem_cons, List.not_mem_nil, or_false] at hm
        rcases hm with rfl | rfl | rfl | rfl | rfl | rfl <;>
          · intro hp
            first
            | rfl
            | (exfalso; rcases hp with hp | hp <;> simp at hp)

/-- Witness for C1: a concrete cohort of two subjects, with one and two
sessions respectively. -/
theorem c1_cohort_build_topology_witness :
    ∃ root : RootWf,
      init_qsipost_wf resolve0 collect0 ["01", "02"] (AtlasCfg.atlas atlas0) false =
        Except.ok root ∧
      root.subjectWfs = ["01", "02"].map (fun s => singleSubjectGraph s false (ss0 s)) ∧
      root.subjectWfs.map Workflow.name =
        ["01", "02"].map (fun s => "single_subject_" ++ s ++ "_wf") ∧
      (∀ s ∈ ["01", "02"],
        (root.subjectWfs.map Workflow.name).count ("single_subject_" ++ s ++ "_wf") = 1) ∧
      (∀ s ∈ ["01", "02"],
        ((singleSubjectGraph s false (ss0 s)).nodes.filter
            (fun n => n.kind == NodeKind.diffusionWf)).map Node.name =
          (ss0 s).map (fun r => "diffusion_" ++ r.session_id ++ "_wf") ∧
        (singleSubjectGraph s false (ss0 s)).nodes.filter
            (fun n => n.kind == NodeKind.anatomicalWf) = [anatomicalWfNode] ∧
        (∀ r ∈ ss0 s,
          (⟨"anatomical_wf", "outputnode.whole_brain_parcellation",
            "diffusion_" ++ r.session_id ++ "_wf",
            "inputnode.whole_brain_t1w_parcellation"⟩ : Edge) ∈
              (singleSubjectGraph s false (ss0 s)).edges ∧
          (⟨"anatomical_wf", "outputnode.gm_cropped_parcellation",
            "diffusion_" ++ r.session_id ++ "_wf",
            "inputnode.gm_cropped_t1w_parcellation"⟩ : Edge) ∈
              (singleSubjectGraph s false (ss0 s)).edges) ∧
        (∀ e ∈ (singleSubjectGraph s false (ss0 s)).edges,
          (e.dstPort = "inputnode.whole_brain_t1w_parcellation" ∨
           e.dstPort = "inputnode.gm_cropped_t1w_parcellation") →
          e.src = "anatomical_wf")) :=
  c1_cohort_build_topology resolve0 collect0 ["01", "02"] (AtlasCfg.atlas atlas0)
    atlas0 (fun _ => sd0) ss0 rfl (fun s _ => rfl) (by decide)

/-- C2: the tensor-estimation workflow derives exactly the nine parameters
`adc, fa, ad, rd, cl, cp, cs, evec, eval`; the derivative-sink map node
expands to one sink instance per parameter, each tagged with a distinct
`desc` equal to its parameter name; and the fan-in merge node's inputs
`in1..in9` receive the parameters in declared order. -/
theorem c2_tensor_fanout_order :
    TENSOR_PARAMETERS = ["adc", "fa", "ad", "rd", "cl", "cp", "cs", "evec", "eval"] ∧
    TENSOR_PARAMETERS.length = 9 ∧
    (mapNodeInstances "ds_tensor_wf" dsTensorDescValues).length = TENSOR_PARAMETERS.length ∧
    (mapNodeInstances "ds_tensor_wf" dsTensorDescValues).map Prod.snd = TENSOR_PARAMETERS ∧
    ((mapNodeInstances "ds_tensor_wf" dsTensorDescValues).map Prod.snd).Nodup ∧
    listifyTensorNode.inPorts =
      ["in1", "in2", "in3", "in4", "in5", "in6", "in7", "in8", "in9"] ∧
    tensorListifyPairs =
      [("adc", "in1"), ("fa", "in2"), ("ad", "in3"), ("rd", "in4"), ("cl", "in5"),
       ("cp", "in6"), ("cs", "in7"), ("evec", "in8"), ("eval", "in9")] ∧
    (init_mrtrix3_tensor_wf "mrtrix3_tensor_wf").edges.filter
        (fun e => e.dst == "listify_tensor_params") =
      tensorListifyPairs.map
        (fun pr => ⟨"outputnode", pr.1, "listify_tensor_params", pr.2⟩) :=
  ⟨rfl, rfl, rfl, rfl, by decide, rfl, rfl, by decide⟩

/-- C4: with `anat_only = true` the subject build returns a subject
subgraph containing the anatomical workflow and zero session subgraphs,
regardless of the discovered session count. -/
theorem c4_anat_only_zero_sessions
    (collect : String → Except String (SubjectData × List SessionRecord))
    (subject_id : String) (atlas : Atlas) (sd : SubjectData)
    (sessions : List SessionRecord)
    (h : collect subject_id = Except.ok (sd, sessions)) :
    init_single_subject_wf collect subject_id atlas true =
      Except.ok (singleSubjectGraph subject_id true sessions) ∧
    (singleSubjectGraph subject_id true sessions).nodes.filter
      (fun n => n.kind == NodeKind.diffusionWf) = [] ∧
    anatomicalWfNode ∈ (singleSubjectGraph subject_id true sessions).nodes ∧
    (singleSubjectGraph subject_id true sessions).nodes =
      [subjectInputNode, anatomicalWfNode] := by
  refine ⟨by simp [init_single_subject_wf, h], rfl, ?_, rfl⟩
  rw [singleSubjectGraph_true]
  simp

/-- Witness for C4: a concrete subject discovered with two sessions still
yields zero session subgraphs in anatomy-only mode. -/
theorem c4_anat_only_zero_sessions_witness :
    init_single_subject_wf collect0 "05" atlas0 true =
      Except.ok (singleSubjectGraph "05" true (ss0 "05")) ∧
    (singleSubjectGraph "05" true (ss0 "05")).nodes.filter
      (fun n => n.kind == NodeKind.diffusionWf) = [] ∧
    anatomicalWfNode ∈ (singleSubjectGraph "05" true (ss0 "05")).nodes ∧
    (singleSubjectGraph "05" true (ss0 "05")).nodes =
      [subjectInputNode, anatomicalWfNode] :=
  c4_anat_only_zero_sessions collect0 "05" atlas0 sd0 (ss0 "05") rfl

/-- C5: `estimate_tractography_parameters` is linear in the first spatial
voxel dimension of the input image: it returns
`(stepscale * pixdim, lenscale_min * pixdim, lenscale_max * pixdim)`; for
`pixdim = 2` the default values `(1/2, 30, 500)` map to `(1, 60, 1000)`. -/
theorem c5_estimate_parameters_linear :
    (∀ (in_file : NiftiImage) (stepscale lenscale_min lenscale_max : ℚ),
      estimate_tractography_parameters in_file stepscale lenscale_min lenscale_max =
        (stepscale * in_file.pixdim 1, lenscale_min * in_file.pixdim 1,
         lenscale_max * in_file.pixdim 1)) ∧
    estimate_tractography_parameters ⟨fun _ => 2⟩ = ((1 : ℚ), (60 : ℚ), (1000 : ℚ)) :=
  ⟨fun _ _ _ _ => rfl, by norm_num [estimate_tractography_parameters]⟩

/-- C9: in every build of the atlas-registration workflow, the
transform-application node applies the template-to-native transform with
`NearestNeighbor` interpolation, and it is the only node of that name. -/
theorem c9_nearest_neighbor_interpolation :
    ∀ name : String,
      (init_registration_wf name).nodes.filter
        (fun n => n.name == "apply_transforms") = [applyTransformsNode] ∧
      applyTransformsNode.params =
        [("interpolation", ParamValue.str "NearestNeighbor")] :=
  fun _ => ⟨rfl, rfl⟩

/-- C3 counterexample: with filtering enabled and neither termination
criterion set, the build does fail, but not before any node of the
tractography workflow is created — the nine nodes of the unfiltered
pipeline are created first, so the claimed conjunction is false at this
concrete configuration. -/
theorem c3_counterexample_nodes_created_before_error :
    ¬ ((init_mrtrix_tractography_wf ⟨true, none, none, 1000, 45⟩).2.isOk = false ∧
       (init_mrtrix_tractography_wf ⟨true, none, none, 1000, 45⟩).1 = []) := by
  decide

/-- C3 (amended): when filtering is enabled and neither `sift_term_number`
nor `sift_term_ratio` is truthy, the build fails with the build-time
`ValueError` before the filter node (`tcksift`) is created — no workflow
is returned — but the nine nodes of the unfiltered pipeline have already
been created at that point. -/
theorem c3_filtering_error_before_filter_node (cfg : TractographyCfg)
    (hf : cfg.do_sift_filtering = true)
    (hn : pyTruthyNat cfg.sift_term_number = false)
    (hr : pyTruthyRat cfg.sift_term_ratio_q = false) :
    (init_mrtrix_tractography_wf cfg).2 = Except.error siftValueErrorMsg ∧
    (init_mrtrix_tractography_wf cfg).1 = tractographyBaseNodeNames ∧
    "tcksift" ∉ (init_mrtrix_tractography_wf cfg).1 := by
  have hkw : tcksiftKwargs cfg = Except.error siftValueErrorMsg := by
    simp [tcksiftKwargs, hn, hr]
  have h : init_mrtrix_tractography_wf cfg =
      (tractographyBaseNodeNames, Except.error siftValueErrorMsg) := by
    simp [init_mrtrix_tractography_wf, hf, hkw]
  rw [h]
  exact ⟨rfl, rfl, by decide⟩

/-- Witness for C3 (amended): the concrete misconfiguration. -/
theorem c3_filtering_error_before_filter_node_witness :
    (init_mrtrix_tractography_wf ⟨true, none, none, 1000, 45⟩).2 =
      Except.error siftValueErrorMsg ∧
    (init_mrtrix_tractography_wf ⟨true, none, none, 1000, 45⟩).1 =
      tractographyBaseNodeNames ∧
    "tcksift" ∉ (init_mrtrix_tractography_wf ⟨true, none, none, 1000, 45⟩).1 :=
  c3_filtering_error_before_filter_node ⟨true, none, none, 1000, 45⟩ rfl rfl rfl

/-- C10: when filtering is enabled and both `sift_term_number` and
`sift_term_ratio` are truthy, the build succeeds and the filter node
carries only `term_number` (the ratio is silently ignored); and
`term_ratio` ever appears among the filter keyword arguments only when
`sift_term_number` is not truthy. -/
theorem c10_term_number_precedence (cfg : TractographyCfg) (n : Nat) (q : ℚ)
    (hf : cfg.do_sift_filtering = true)
    (hn : cfg.sift_term_number = some n) (hn0 : n ≠ 0)
    (_hq : cfg.sift_term_ratio_q = some q) (_hq0 : q ≠ 0) :
    (∃ wf : Workflow, (init_mrtrix_tractography_wf cfg).2 = Except.ok wf ∧
      tcksiftNode [("term_number", ParamValue.nat n)] ∈ wf.nodes ∧
      (tcksiftNode [("term_number", ParamValue.nat n)]).params =
        [("term_number", ParamValue.nat n), ("fd_scale_gm", ParamValue.bool true)] ∧
      (∀ v : ParamValue,
        ("term_ratio", v) ∉ (tcksiftNode [("term_number", ParamValue.nat n)]).params)) ∧
    (∀ (cfg' : TractographyCfg) (kwargs : List (String × ParamValue)),
      tcksiftKwargs cfg' = Except.ok kwargs →
      ∀ v : ParamValue, ("term_ratio", v) ∈ kwargs →
        pyTruthyNat cfg'.sift_term_number = false) := by
  constructor
  · have htr : pyTruthyNat (some n) = true := bne_iff_ne.mpr hn0
    have hkw : tcksiftKwargs cfg = Except.ok [("term_number", ParamValue.nat n)] := by
      unfold tcksiftKwargs
      rw [hn, if_pos htr]
      rfl
    have hrun : (init_mrtrix_tractography_wf cfg).2 =
        Except.ok (connectBatch
          (addNode (tractographyUnfilteredWf cfg "mrtrix_tractography_wf"
              "SD_Stream" (1/2) 30 500 ".")
            (tcksiftNode [("term_number", ParamValue.nat n)]))
          [(tckgenNode "SD_Stream" cfg, tcksiftNode [("term_number", ParamValue.nat n)],
            [("out_file", "in_tracks")]),
           (mtnormaliseNode, tcksiftNode [("term_number", ParamValue.nat n)],
            [("out_wm_fod", "in_fod")]),
           (gen5ttNode, tcksiftNode [("term_number", ParamValue.nat n)],
            [("out_file", "act_file")]),
           (tcksiftNode [("term_number", ParamValue.nat n)], tractographyOutputNode,
            [("out_file", "tck_file")])]) := by
      simp [init_mrtrix_tractography_wf, hf, hkw]
    refine ⟨_, hrun, ?_, rfl, ?_⟩
    · rw [connectBatch_nodes]
      simp [addNode]
    · intro v
      simp [tcksiftNode]
  · intro cfg' kwargs hok v hv
    by_cases h : pyTruthyNat cfg'.sift_term_number = true
    · simp only [tcksiftKwargs, h, if_true, Except.ok.injEq] at hok
      subst hok
      simp at hv
    · simpa using h

/-- Witness for C10: a concrete configuration with both criteria set. -/
theorem c10_term_number_precedence_witness :
    (∃ wf : Workflow,
      (init_mrtrix_tractography_wf ⟨true, some 5, some (1/2), 1000, 45⟩).2 =
        Except.ok wf ∧
      tcksiftNode [("term_number", ParamValue.nat 5)] ∈ wf.nodes ∧
      (tcksiftNode [("term_number", ParamValue.nat 5)]).params =
        [("term_number", ParamValue.nat 5), ("fd_scale_gm", ParamValue.bool true)] ∧
      (∀ v : ParamValue,
        ("term_ratio", v) ∉ (tcksiftNode [("term_number", ParamValue.nat 5)]).params)) ∧
    (∀ (cfg' : TractographyCfg) (kwargs : List (String × ParamValue)),
      tcksiftKwargs cfg' = Except.ok kwargs →
      ∀ v : ParamValue, ("term_ratio", v) ∈ kwargs →
        pyTruthyNat cfg'.sift_term_number = false) :=
  c10_term_number_precedence ⟨true, some 5, some (1/2), 1000, 45⟩ 5 (1/2)
    rfl rfl (by decide) rfl (by norm_num)

/-- C6 (code bug): a connect pair naming a port absent from the referenced
node's declared ports is rejected and adds no edge; but the subject
workflow's own connect call uses the source port `atlas_nifti_file` on the
subject input node, whose declared field list contains `atlas_nifti`
instead — so that requested edge is rejected and never appears in the
built subject graph, contradicting the claim that every port name used in
the subject workflow's connect calls appears in the referenced node's
declared field list. -/
theorem c6_connect_rejects_undeclared_port
    (wf : Workflow) (src dst : Node) (p : String × String)
    (h : p.1 ∉ src.outPorts ∨ p.2 ∉ dst.inPorts) :
    (connectPair wf src dst p).edges = wf.edges ∧
    subjectInputFields.contains "atlas_nifti_file" = false ∧
    subjectInputFields.contains "atlas_nifti" = true ∧
    ("atlas_nifti_file", "inputnode.atlas_nifti_file") ∈ subjectAnatConnPairs ∧
    "atlas_nifti_file" ∈ subjectInputAssignedFields ∧
    (∀ e ∈ (singleSubjectGraph "01" false [⟨"1"⟩]).edges,
      e.srcPort ≠ "atlas_nifti_file") := by
  refine ⟨?_, rfl, rfl, by decide, by decide, by decide⟩
  rcases h with h | h <;> simp [connectPair, h]

/-- Witness for C6: the rejected `atlas_nifti_file` connect pair of the
subject workflow, applied to an empty graph. -/
theorem c6_connect_rejects_undeclared_port_witness :
    (connectPair ⟨"w", [], []⟩ subjectInputNode anatomicalWfNode
      ("atlas_nifti_file", "inputnode.atlas_nifti_file")).edges = [] ∧
    subjectInputFields.contains "atlas_nifti_file" = false ∧
    subjectInputFields.contains "atlas_nifti" = true ∧
    ("atlas_nifti_file", "inputnode.atlas_nifti_file") ∈ subjectAnatConnPairs ∧
    "atlas_nifti_file" ∈ subjectInputAssignedFields ∧
    (∀ e ∈ (singleSubjectGraph "01" false [⟨"1"⟩]).edges,
      e.srcPort ≠ "atlas_nifti_file") :=
  c6_connect_rejects_undeclared_port ⟨"w", [], []⟩ subjectInputNode anatomicalWfNode
    ("atlas_nifti_file", "inputnode.atlas_nifti_file") (Or.inl (by decide))

/-- C7: when building one subject's subgraph raises, the whole cohort
build aborts with that error — no root workflow is returned, the subject
is not skipped, and the result does not depend on the participants listed
after the failing one. -/
theorem c7_subject_failure_aborts_cohort
    (resolve : String → Option Atlas)
    (collect : String → Except String (SubjectData × List SessionRecord))
    (acfg : AtlasCfg) (atlas : Atlas) (anat_only : Bool)
    (pre post : List String) (s : String) (e : BuildErr)
    (hatlas : resolveParcellationAtlas resolve acfg = Except.ok atlas)
    (hpre : ∀ p ∈ pre, ∃ w, init_single_subject_wf collect p atlas anat_only = Except.ok w)
    (hs : init_single_subject_wf collect s atlas anat_only = Except.error e) :
    init_qsipost_wf resolve collect (pre ++ s :: post) acfg anat_only =
      Except.error e ∧
    init_qsipost_wf resolve collect (pre ++ s :: post) acfg anat_only =
      init_qsipost_wf resolve collect (pre ++ [s]) acfg anat_only := by
  have h1 := qsipostLoop_error
    (fun p => init_single_subject_wf collect p atlas anat_only) e pre s post [] hpre hs
  have h2 := qsipostLoop_error
    (fun p => init_single_subject_wf collect p atlas anat_only) e pre s [] [] hpre hs
  constructor
  · simp only [init_qsipost_wf, hatlas, h1]
  · simp only [init_qsipost_wf, hatlas, h1, h2]

/-- Witness for C7: a three-subject cohort whose second subject's
discovery fails. -/
theorem c7_subject_failure_aborts_cohort_witness :
    init_qsipost_wf resolve0 collectFail (["01"] ++ "02" :: ["03"])
      (AtlasCfg.atlas atlas0) false =
      Except.error (BuildErr.discovery "02" "missing DWI series") ∧
    init_qsipost_wf resolve0 collectFail (["01"] ++ "02" :: ["03"])
      (AtlasCfg.atlas atlas0) false =
      init_qsipost_wf resolve0 collectFail (["01"] ++ ["02"])
        (AtlasCfg.atlas atlas0) false :=
  c7_subject_failure_aborts_cohort resolve0 collectFail (AtlasCfg.atlas atlas0)
    atlas0 false ["01"] ["03"] "02" (BuildErr.discovery "02" "missing DWI series")
    rfl
    (by intro p hp; simp only [List.mem_singleton] at hp; subst hp; exact ⟨_, rfl⟩)
    rfl

/-- C8: when the configured atlas name cannot be resolved, the cohort
build fails with a fatal error identifying the atlas, before any subject
subgraph is built — the result is the `ValueError` for every participant
list and every discovery collaborator, and the error message contains the
atlas name. -/
theorem c8_unresolved_atlas_fatal (resolve : String → Option Atlas)
    (atlas_name : String) (h : resolve atlas_name = none) :
    (∀ (collect : String → Except String (SubjectData × List SessionRecord))
        (participant_label : List String) (anat_only : Bool),
      init_qsipost_wf resolve collect participant_label (AtlasCfg.name atlas_name)
        anat_only = Except.error (BuildErr.atlasNotFound atlas_name)) ∧
    (∃ pre post : String,
      buildErrMessage (BuildErr.atlasNotFound atlas_name) =
        pre ++ atlas_name ++ post) := by
  constructor
  · intro collect participant_label anat_only
    simp only [init_qsipost_wf, resolveParcellationAtlas, h]
  · refine ⟨"Could not find the atlas ",
      " in the configured atlas directory. " ++
        "Please check the name or initialize a corresponding Atlas object.", ?_⟩
    simp only [buildErrMessage]
    rw [String.append_assoc]

/-- Witness for C8: a resolver that resolves nothing, at a concrete atlas
name. -/
theorem c8_unresolved_atlas_fatal_witness :
    (∀ (collect : String → Except String (SubjectData × List SessionRecord))
        (participant_label : List String) (anat_only : Bool),
      init_qsipost_wf resolveNone collect participant_label
        (AtlasCfg.name "brainnetome") anat_only =
        Except.error (BuildErr.atlasNotFound "brainnetome")) ∧
    (∃ pre post : String,
      buildErrMessage (BuildErr.atlasNotFound "brainnetome") =
        pre ++ "brainnetome" ++ post) :=
  c8_unresolved_atlas_fatal resolveNone "brainnetome" rfl
